import Mathlib

/-!
Verification development for `src/packages/af-webpack/src/getConfig.js`.

The file shallowly embeds the synthesizer `getConfig` of the af-webpack
package: the data model (options record, process environment flags,
pipeline descriptor), the CSS loader-chain builder, the lint configuration
resolver, the module rule assembler, the plugin list assembler and the
output/hash scheme selector.  JavaScript values are embedded as plain Lean
data; JavaScript truthiness of possibly-undefined strings is made explicit
through `Option`; operations that can throw (`require.resolve`,
`require(...)` of a manifest, reading a rc file) return `Except` and the
external collaborators (module resolution probe, filesystem existence
check, manifest reader, rc reader) are threaded as an explicit record of
functions, so one synthesis run is a pure function of the options, the
environment flags and that record.  The final `applyWebpackConfig` user
override hook is an external collaborator that may replace arbitrary
fields of the descriptor, so the theorems below speak about the descriptor
the synthesizer hands to it.
-/

namespace AfWebpack

/-- JS truthiness of a possibly-undefined string: `undefined` and `""` are falsy. -/
def optTruthy : Option String → Bool
  | none => false
  | some s => !(s == "")

/-- JS `a || d` for a possibly-undefined string `a` and a string default `d`. -/
def jsOrStr : Option String → String → String
  | none, d => d
  | some s, d => if s == "" then d else s

/-- JS `a || undefined` for a possibly-undefined string: an empty string collapses to `undefined`. -/
def jsOrUndef : Option String → Option String
  | none => none
  | some s => if s == "" then none else some s

/-- Node `path.resolve(base, p)`: an absolute `p` (leading separator) wins,
otherwise `p` is joined under `base`. -/
def pathResolve (base p : String) : String :=
  if p.toList.head? = some '/' then p else base ++ "/" ++ p

/-- Node `path.join(a, b)`. -/
def pathJoin (a b : String) : String := a ++ "/" ++ b

/-- Node `path.dirname`: the path up to the last separator. -/
def pathDirname (p : String) : String :=
  let parts := p.splitOn "/"
  if parts.length ≤ 1 then "." else String.intercalate "/" parts.dropLast

/-- One value of a parsed lint-configuration (`.eslintrc`) file, with its JS truthiness. -/
inductive RcVal where
  | str (s : String)
  | arr (items : List String)
  | boolean (b : Bool)
  | num (n : Int)
  | objVal
deriving DecidableEq, Repr

/-- JS truthiness of an `RcVal`: empty strings, `false` and `0` are falsy; arrays and objects are always truthy. -/
def RcVal.truthy : RcVal → Bool
  | .str s => !(s == "")
  | .arr _ => true
  | .boolean b => b
  | .num n => !(n == 0)
  | .objVal => true

/-- A parsed JS object with `RcVal` values, as an association list in key order. -/
abbrev RcMap := List (String × RcVal)

/-- Property access `m[k]`: the value stored under `k`, if any. -/
def rcLookup (m : RcMap) (k : String) : Option RcVal :=
  match m with
  | [] => none
  | (k', v) :: rest => if k' == k then some v else rcLookup rest k

/-- JS truthiness of `m[k]` where a missing key reads as `undefined`. -/
def optRcTruthy : Option RcVal → Bool
  | none => false
  | some v => v.truthy

/-- JS object spread `{...a, ...b}`: the keys of `a` in order (with `b`'s value
where `b` also has the key), then the keys only `b` has, in `b`'s order. -/
def rcMerge (a b : RcMap) : RcMap :=
  a.map (fun kv => match rcLookup b kv.1 with
    | some v => (kv.1, v)
    | none => kv)
  ++ b.filter (fun kv => (rcLookup a kv.1).isNone)

/-- Options object of the `css-loader` (the spread `{...cssOptions, ...(cssModules ? cssModulesConfig : {})}`);
a field a spread never set is `none`. -/
structure CssLoaderOptions where
  importLoaders : Nat
  minimize : Option Bool
  sourceMap : Option Bool
  modules : Option Bool
  localIdentName : Option String
deriving DecidableEq, Repr

/-- One entry of the post-processor plugin list (`postcss-flexbugs-fixes`,
`autoprefixer` with its browser targets, or a user-supplied extra plugin). -/
inductive PostcssPlugin where
  | flexbugsFixes
  | autoprefixerPlugin (browsers : List String) (flexbox : String)
  | extraPlugin (name : String)
deriving DecidableEq, Repr

/-- Options object of the `postcss-loader`. -/
structure PostcssOptions where
  ident : String
  plugins : List PostcssPlugin
deriving DecidableEq, Repr

/-- Options object of the `less-loader`. -/
structure LessOptions where
  modifyVars : List (String × String)
deriving DecidableEq, Repr

/-- The resolved lint configuration (`eslintOptions`): `baseConfig := none` embeds
the JS assignment `baseConfig = false`. -/
structure EslintOptions where
  formatter : String
  baseConfig : Option RcMap
  ignore : Bool
  eslintPath : String
  useEslintrc : Bool
deriving DecidableEq, Repr

/-- What `opts.babel || babelConfig` picked: the user's transformer options or the bundled default. -/
inductive BabelBase where
  | fromUser (payload : String)
  | bundledDefault
deriving DecidableEq, Repr

/-- Options object of the `babel-loader`. -/
structure BabelLoaderOptions where
  base : BabelBase
  cacheDirectory : Bool
  babelrc : Bool
deriving DecidableEq, Repr

/-- The per-loader options payloads that occur in the rule list. -/
inductive LoaderOptions where
  | cssOpts (o : CssLoaderOptions)
  | postcssOpts (o : PostcssOptions)
  | lessOpts (o : LessOptions)
  | sassOpts (o : Option String)
  | urlOpts (limit : Nat) (name : String)
  | fileOpts (name : String)
  | eslintOpts (o : EslintOptions)
  | tslintOpts (emitErrors : Bool)
  | babelOpts (o : BabelLoaderOptions)
  | atlOpts (transpileOnly : Bool)
deriving DecidableEq, Repr

/-- One element of a `use` chain: either a bare resolved path (the source writes
`require.resolve('style-loader')` as a string element) or a `{loader, options}` object. -/
inductive UseItem where
  | str (path : String)
  | obj (loader : String) (options : Option LoaderOptions)
deriving DecidableEq, Repr

/-- A rule's tool chain: the plain array, or the value `ExtractTextPlugin.extract({use})`
substituted by the production rewrite. -/
inductive RuleUse where
  | chain (items : List UseItem)
  | extractedChain (items : List UseItem)
deriving DecidableEq, Repr

/-- An include/exclude scope entry: a regex (kept as its source text) or a filesystem path. -/
inductive PathMatcher where
  | regex (source : String)
  | path (p : String)
deriving DecidableEq, Repr

/-- A rule's include/exclude value: a single matcher or an array of them. -/
inductive MatchSpec where
  | single (m : PathMatcher)
  | multiple (ms : List PathMatcher)
deriving DecidableEq, Repr

/-- One transformation rule of `module.rules`; fields a rule object does not carry are `none`. -/
structure Rule where
  test : Option String := none
  includeSpec : Option PathMatcher := none
  excludeSpec : Option MatchSpec := none
  enforce : Option String := none
  use : Option RuleUse := none
  loader : Option String := none
  options : Option LoaderOptions := none
deriving DecidableEq, Repr

/-- One plugin entry of the descriptor, named by its constructor with the
option payload the synthesizer fills in (payloads this development never
inspects are kept shallow). -/
inductive Plugin where
  | hotModuleReplacement
  | watchMissingNodeModules (p : String)
  | systemBell
  | sourceMapDevTool
  | occurrenceOrder
  | moduleConcatenation
  | extractText (filename : String) (allChunks : Bool)
  | manifestPlugin (fileName : String) (payload : Option String)
  | uglifyJs (sourceMapOverride : Bool)
  | definePlugin (nodeEnv : String) (socketServer : Option String) (defines : List (String × String))
  | bundleAnalyzer (analyzerPort : Nat)
  | caseSensitivePaths
  | loaderOptionsPlugin (context : String)
  | forkTsChecker
  | ignoreMomentLocale
  | commonsChunk (spec : String)
  | copyPlugin (patterns : List (String × String))
deriving DecidableEq, Repr

/-- The `output` section of the descriptor. -/
structure OutputSection where
  path : String
  pathinfo : Bool
  filename : String
  publicPath : Option String
  chunkFilename : String
deriving DecidableEq, Repr

/-- The `resolve` section of the descriptor. -/
structure ResolveSection where
  modules : List String
  extensions : List String
  aliasMap : List (String × String)
deriving DecidableEq, Repr

/-- The pipeline descriptor `getConfig` synthesizes (the value handed to the
external override hook `applyWebpackConfig`). -/
structure Config where
  bail : Bool
  devtool : Option String
  entry : Option String
  output : OutputSection
  resolveConfig : ResolveSection
  moduleRules : List Rule
  plugins : List Plugin
  externals : Option String
  nodeShims : List (String × String)
  performanceHintsOff : Bool
deriving DecidableEq, Repr

/-- The user-supplied options record (`opts`); payloads the synthesizer never
looks into (entry spec, sass options, babel options, define values, copy
patterns, commons specs, externals, manifest spec) are carried as data. -/
structure Opts where
  cwd : Option String := none
  entry : Option String := none
  outputPath : Option String := none
  publicPath : Option String := none
  theme : Option (List (String × String)) := none
  browserslist : Option (List String) := none
  disableCSSModules : Bool := false
  disableCSSSourceMap : Bool := false
  extraPostCSSPlugins : Option (List String) := none
  hash : Bool := false
  sass : Option String := none
  babel : Option String := none
  extraResolveModules : Option (List String) := none
  extraResolveExtensions : Option (List String) := none
  aliasMap : List (String × String) := []
  extraBabelIncludes : Option (List String) := none
  commons : Option (List String) := none
  copy : Option (List (String × String)) := none
  manifest : Option String := none
  externals : Option String := none
  define : Option (List (String × String)) := none
  devtool : Option String := none
  ignoreMomentLocale : Bool := false
deriving DecidableEq, Repr

/-- The process environment flags read at synthesis time.  Pure on/off switches
(`DISABLE_TSLINT`, `DISABLE_ESLINT`, `NO_COMPRESS`, `DISABLE_BABELRC`,
`TS_TYPECHECK`, `ANALYZE`) are embedded as their truthiness; variables whose
string value matters stay `Option String`.  `processCwd` is the directory the
zero-argument `resolve(...)` calls of the source resolve against. -/
structure Env where
  nodeEnv : Option String := none
  noCompress : Bool := false
  disableTslint : Bool := false
  disableEslint : Bool := false
  disableBabelrc : Bool := false
  tsTypecheck : Bool := false
  analyze : Bool := false
  analyzePort : Option Nat := none
  socketServer : Option String := none
  publicPathEnv : Option String := none
  processCwd : String := ""
deriving DecidableEq, Repr

/-- `process.env.NODE_ENV === 'development'`. -/
def isDevOf (e : Env) : Bool := e.nodeEnv == some "development"

/-- The project manifest (`package.json`) as the synthesizer reads it: the
names declared under `dependencies` and `devDependencies`, each field `none`
when the manifest does not carry it. -/
structure Manifest where
  dependencies : Option (List String) := none
  devDependencies : Option (List String) := none
deriving DecidableEq, Repr

/-- The external collaborators of one synthesis call: `require.resolve`
(`resolveProbe`, `none` embeds a throw), `existsSync`, the manifest reader
(`require(resolve('package.json'))`), the rc reader (`readRc`), `resolve.sync`
with a base directory, and the module's own `__dirname`. -/
structure Ext where
  resolveProbe : String → Option String
  fsExists : String → Bool
  readManifest : String → Except Unit Manifest
  readRc : String → Except Unit RcMap
  resolveFrom : String → String → Except Unit String
  dirnameVal : String

/-- `require.resolve(name)`: the resolved path, or a thrown error carrying the name. -/
def requireResolve (x : Ext) (name : String) : Except String String :=
  match x.resolveProbe name with
  | some p => .ok p
  | none => .error name

/-- Modelled from the spec: `stripLastSlash` is imported from `./utils`, which is
not under `src/`.  The spec says the environment public-path override gets "a
trailing separator normalized to exactly one", so this drops every trailing
separator; the caller appends the single one. -/
def stripLastSlash (s : String) : String :=
  String.mk ((s.toList.reverse.dropWhile (fun c => c == '/')).reverse)

/-- Modelled from the spec: `normalizeTheme` is imported from `./normalizeTheme`,
which is not under `src/`.  The spec says the theme mapping is "pass-through, or
an empty mapping if none given". -/
def normalizeTheme : Option (List (String × String)) → List (String × String)
  | some t => t
  | none => []

/-- Modelled from the spec: the bundled default browser-target list is loaded
from `./defaultConfigs/browsers`, which is not under `src/`.  No claim depends
on its entries, only on it being the default when no browser-target list is given. -/
def defaultBrowsers : List String :=
  [">1%", "last 4 versions", "Firefox ESR", "not ie <= 8"]

/-- The values `getCSSLoader` closes over: the resolution probe, `cssOptions`,
`opts.disableCSSModules` (deciding what `cssModulesConfig` holds),
`postcssOptions`, `lessOptions` and `opts.sass`. -/
structure CssCtx where
  x : Ext
  cssOptions : CssLoaderOptions
  disableCSSModules : Bool
  postcssOptions : PostcssOptions
  lessOptions : LessOptions
  sassUserOptions : Option String

/-- The closed-over values of `getCSSLoader`, built from the options and the
environment exactly as lines 30-62 of the source do: `cssOptions` keeps
`importLoaders: 1` and, outside development, `minimize`/`sourceMap`;
`postcssOptions` lists flexbugs-fixes, autoprefixer over the browser targets
and the user's extra post-processor plugins; `lessOptions` carries the
normalized theme. -/
def mkCssCtx (o : Opts) (e : Env) (x : Ext) : CssCtx :=
  let isDev := isDevOf e
  { x := x
  , cssOptions :=
      { importLoaders := 1
      , minimize := if isDev then none else some (!e.noCompress)
      , sourceMap := if isDev then none else some (!o.disableCSSSourceMap)
      , modules := none
      , localIdentName := none }
  , disableCSSModules := o.disableCSSModules
  , postcssOptions :=
      { ident := "postcss"
      , plugins :=
          [PostcssPlugin.flexbugsFixes,
           PostcssPlugin.autoprefixerPlugin (o.browserslist.getD defaultBrowsers) "no-2009"]
          ++ (match o.extraPostCSSPlugins with
              | some l => l.map PostcssPlugin.extraPlugin
              | none => []) }
  , lessOptions := { modifyVars := normalizeTheme o.theme }
  , sassUserOptions := o.sass }

/-- The spread `...(cssModules ? cssModulesConfig : {})` when `cssModules` is set:
an empty object when CSS modules are disabled, else the scoping options. -/
def applyCssModulesConfig (c : CssCtx) (o : CssLoaderOptions) : CssLoaderOptions :=
  if c.disableCSSModules then o
  else { o with modules := some true, localIdentName := some "[local]___[hash:base64:5]" }

/-- The argument record of `getCSSLoader`. -/
structure GetCSSLoaderOpts where
  cssModules : Bool := false
  less : Bool := false
  sass : Bool := false
  sassOptions : Option String := none
deriving DecidableEq, Repr

/-- Lines 64-104 of the source: the tool chain of one style rule, outermost
first: the runtime style injector, the module loader (with scoping options when
`cssModules`), the vendor-prefixing post-processor, then the optional
`less-loader` and the optional `sass-loader` — the last one guarded by the soft
probe `hasSassLoader` (the try/catch around `require.resolve('sass-loader')`,
inlined here as `(c.x.resolveProbe "sass-loader").isSome`), while
`require.resolve('less-loader')` throws when the first preprocessor is
requested but unresolvable. -/
def getCSSLoader (c : CssCtx) (g : GetCSSLoaderOpts) : Except String (List UseItem) :=
  match requireResolve c.x "style-loader" with
  | .error s => .error s
  | .ok styleP =>
  match requireResolve c.x "css-loader" with
  | .error s => .error s
  | .ok cssP =>
  match requireResolve c.x "postcss-loader" with
  | .error s => .error s
  | .ok postcssP =>
  match (if g.less then
           (requireResolve c.x "less-loader").map
             (fun p => [UseItem.obj p (some (LoaderOptions.lessOpts c.lessOptions))])
         else .ok []) with
  | .error s => .error s
  | .ok lessPart =>
  match (if g.sass && (c.x.resolveProbe "sass-loader").isSome then
           (requireResolve c.x "sass-loader").map
             (fun p => [UseItem.obj p (some (LoaderOptions.sassOpts g.sassOptions))])
         else .ok []) with
  | .error s => .error s
  | .ok sassPart =>
    .ok ([UseItem.str styleP,
          UseItem.obj cssP (some (LoaderOptions.cssOpts
            (if g.cssModules then applyCssModulesConfig c c.cssOptions else c.cssOptions))),
          UseItem.obj postcssP (some (LoaderOptions.postcssOpts c.postcssOptions))]
         ++ lessPart ++ sassPart)

/-- Lines 106-151 of the source: the six style rules — for each style language
a project-scoped rule (CSS modules on, `node_modules` excluded) and a
dependency-scoped rule (`node_modules` included, no scoping). -/
def buildCssRules (c : CssCtx) : Except String (List Rule) :=
  match getCSSLoader c { cssModules := true } with
  | .error s => .error s
  | .ok u1 =>
  match getCSSLoader c {} with
  | .error s => .error s
  | .ok u2 =>
  match getCSSLoader c { cssModules := true, less := true } with
  | .error s => .error s
  | .ok u3 =>
  match getCSSLoader c { less := true } with
  | .error s => .error s
  | .ok u4 =>
  match getCSSLoader c { cssModules := true, sass := true, sassOptions := c.sassUserOptions } with
  | .error s => .error s
  | .ok u5 =>
  match getCSSLoader c { sass := true, sassOptions := c.sassUserOptions } with
  | .error s => .error s
  | .ok u6 =>
    .ok
      [ { test := some "\\.css$"
        , excludeSpec := some (.single (.regex "node_modules"))
        , use := some (.chain u1) }
      , { test := some "\\.css$"
        , includeSpec := some (.regex "node_modules")
        , use := some (.chain u2) }
      , { test := some "\\.less$"
        , excludeSpec := some (.single (.regex "node_modules"))
        , use := some (.chain u3) }
      , { test := some "\\.less$"
        , includeSpec := some (.regex "node_modules")
        , use := some (.chain u4) }
      , { test := some "\\.(sass|scss)$"
        , excludeSpec := some (.single (.regex "node_modules"))
        , use := some (.chain u5) }
      , { test := some "\\.(sass|scss)$"
        , includeSpec := some (.regex "node_modules")
        , use := some (.chain u6) } ]

/-- Line 156-158 of the source, for one rule:
`rule.use = ExtractTextPlugin.extract({use: rule.use.slice(1)})`. -/
def extractCssRule (r : Rule) : Rule :=
  { r with use :=
      match r.use with
      | some (.chain items) => some (.extractedChain (items.drop 1))
      | some (.extractedChain items) => some (.extractedChain (items.drop 1))
      | none => none }

/-- Lines 153-160 of the source: outside development every style rule's chain is
rewritten through `ExtractTextPlugin.extract`; in development the rules are kept. -/
def rewriteCssRulesForProd (isDev : Bool) (rules : List Rule) : List Rule :=
  if isDev then rules else rules.map extractCssRule

/-- Line 184 of the source: the script hash suffix. -/
def jsHash (isDev hash : Bool) : String :=
  if !isDev && hash then ".[chunkhash:8]" else ""

/-- Line 185 of the source: the stylesheet hash suffix. -/
def cssHash (isDev hash : Bool) : String :=
  if !isDev && hash then ".[contenthash:8]" else ""

/-- Line 256 of the source: the script filename template. -/
def scriptFilenameTemplate (h : String) : String := "[name]" ++ h ++ ".js"

/-- Line 258 of the source: the async-chunk filename template. -/
def chunkFilenameTemplate (h : String) : String := "[name]" ++ h ++ ".async.js"

/-- Line 405 of the source: the extracted stylesheet filename template. -/
def stylesheetFilenameTemplate (h : String) : String := "[name]" ++ h ++ ".css"

/-- Lines 187-200 of the source: the script transform chain — the debug
instrumentation loader prepended ahead of the primary transpiler. -/
def babelUse (o : Opts) (e : Env) (x : Ext) : Except String (List UseItem) :=
  match requireResolve x "babel-loader" with
  | .error s => .error s
  | .ok babelP =>
    .ok [ UseItem.obj (pathJoin x.dirnameVal "debugLoader.js") none
        , UseItem.obj babelP (some (LoaderOptions.babelOpts
            { base := match o.babel with
                | some p => BabelBase.fromUser p
                | none => BabelBase.bundledDefault
            , cacheDirectory := false
            , babelrc := !e.disableBabelrc })) ]

/-- Lines 202-210 of the source: the default lint configuration — system
formatter, bundled default rule-set, bundled lint engine. -/
def defaultEslintOptions (x : Ext) : Except String EslintOptions :=
  match requireResolve x "eslint-config-umi" with
  | .error s => .error s
  | .ok umiP =>
  match requireResolve x "eslint" with
  | .error s => .error s
  | .ok eslintP =>
    .ok { formatter := "eslintFormatter"
        , baseConfig := some [("extends", RcVal.arr [umiP])]
        , ignore := false
        , eslintPath := eslintP
        , useEslintrc := false }

/-- The path the zero-argument `resolve('package.json')` of line 214 produces:
it is resolved against the process working directory. -/
def manifestPath (e : Env) : String := pathResolve e.processCwd "package.json"

/-- The path the zero-argument `resolve('.eslintrc')` of lines 227-229 produces:
it is resolved against the process working directory. -/
def eslintrcPath (e : Env) : String := pathResolve e.processCwd ".eslintrc"

/-- Lines 212-224 of the source: switch to the project's lint engine.  The
guard is `dependencies.eslint || devDependencies`; every throw inside the
`try` (a failed manifest read, the property access on an absent `dependencies`
object, a failed `resolve.sync`) is swallowed and leaves the options as they
were. -/
def applyUserEslintPath (e : Env) (x : Ext) (cwd : String) (eo : EslintOptions) : EslintOptions :=
  match x.readManifest (manifestPath e) with
  | .error _ => eo
  | .ok m =>
    match m.dependencies with
    | none => eo
    | some deps =>
      if deps.contains "eslint" || m.devDependencies.isSome then
        match x.resolveFrom cwd "eslint" with
        | .error _ => eo
        | .ok p => { eo with eslintPath := p }
      else eo

/-- Lines 226-246 of the source: merge the project-local `.eslintrc`.  A truthy
`extends` makes the file authoritative (`useEslintrc`, drop the base config,
`ignore`); otherwise its keys are spread over the default base config; a failed
parse leaves the options as they were. -/
def applyUserEslintrc (e : Env) (x : Ext) (eo : EslintOptions) : EslintOptions :=
  if x.fsExists (eslintrcPath e) then
    match x.readRc (eslintrcPath e) with
    | .error _ => eo
    | .ok userRc =>
      if optRcTruthy (rcLookup userRc "extends") then
        { eo with useEslintrc := true, baseConfig := none, ignore := true }
      else
        { eo with baseConfig := some (rcMerge (eo.baseConfig.getD []) userRc) }
  else eo

/-- Lines 288-302 of the source: the type-lint pre-pass rule. -/
def tslintRule (cwd tslintP : String) : Rule :=
  { test := some "\\.tsx?$"
  , includeSpec := some (.path cwd)
  , excludeSpec := some (.single (.regex "node_modules"))
  , enforce := some "pre"
  , use := some (.chain [UseItem.obj tslintP (some (LoaderOptions.tslintOpts true))]) }

/-- Lines 307-318 of the source: the script-lint pre-pass rule. -/
def eslintRule (cwd : String) (eo : EslintOptions) (eslintLoaderP : String) : Rule :=
  { test := some "\\.(js|jsx)$"
  , includeSpec := some (.path cwd)
  , excludeSpec := some (.single (.regex "node_modules"))
  , enforce := some "pre"
  , use := some (.chain [UseItem.obj eslintLoaderP (some (LoaderOptions.eslintOpts eo))]) }

/-- Lines 320-332 of the source: the static-asset fallback rule — everything
that is not markup, JSON, script or style goes through `url-loader` with a
10000-byte inline limit and a content-hashed output name. -/
def urlRule (urlP : String) : Rule :=
  { excludeSpec := some (.multiple
      [ .regex "\\.html$"
      , .regex "\\.json$"
      , .regex "\\.(js|jsx|ts|tsx)$"
      , .regex "\\.(css|less|scss|sass)$" ])
  , loader := some urlP
  , options := some (LoaderOptions.urlOpts 10000 "static/[name].[hash:8].[ext]") }

/-- Lines 333-337 of the source: the script transform rule. -/
def jsRule (bu : List UseItem) : Rule :=
  { test := some "\\.(js|jsx)$"
  , excludeSpec := some (.single (.regex "node_modules"))
  , use := some (.chain bu) }

/-- Lines 338-350 of the source: the typed-script rule — the full script chain
followed by a transpile-only type-stripping step. -/
def tsRule (bu : List UseItem) (atlP : String) : Rule :=
  { test := some "\\.(ts|tsx)$"
  , excludeSpec := some (.single (.regex "node_modules"))
  , use := some (.chain (bu ++ [UseItem.obj atlP (some (LoaderOptions.atlOpts true))])) }

/-- Lines 351-359 of the source: one rule per user-declared extra transform
directory, scoped to `join(opts.cwd, include)`. -/
def extraIncludeRule (cwd : String) (bu : List UseItem) (inc : String) : Rule :=
  { test := some "\\.(js|jsx)$"
  , includeSpec := some (.path (pathJoin cwd inc))
  , use := some (.chain bu) }

/-- Lines 360-366 of the source: the markup passthrough rule. -/
def htmlRule (fileP : String) : Rule :=
  { test := some "\\.html$"
  , loader := some fileP
  , options := some (LoaderOptions.fileOpts "[name].[ext]") }

/-- Lines 285-319 of the source: the pre-pass tier — the type-lint rule unless
`DISABLE_TSLINT`, then the script-lint rule unless `DISABLE_ESLINT`; a
disabled rule contributes nothing (its loader is not even resolved). -/
def preLintRules (e : Env) (x : Ext) (cwd : String) (eo : EslintOptions) :
    Except String (List Rule) :=
  match (if e.disableTslint then Except.ok []
         else (requireResolve x "tslint-loader").map (fun p => [tslintRule cwd p])) with
  | .error s => .error s
  | .ok preT =>
  match (if e.disableEslint then Except.ok []
         else (requireResolve x "eslint-loader").map (fun p => [eslintRule cwd eo p])) with
  | .error s => .error s
  | .ok preE => .ok (preT ++ preE)

/-- Lines 320-367 of the source: the rules after the pre-pass tier — fallback,
script, typed-script, user extra directories, markup, then the style rules. -/
def mainRules (o : Opts) (x : Ext) (cwd : String) (bu : List UseItem) (cssR : List Rule) :
    Except String (List Rule) :=
  match requireResolve x "url-loader" with
  | .error s => .error s
  | .ok urlP =>
  match requireResolve x "awesome-typescript-loader" with
  | .error s => .error s
  | .ok atlP =>
  match requireResolve x "file-loader" with
  | .error s => .error s
  | .ok fileP =>
    .ok ([urlRule urlP, jsRule bu, tsRule bu atlP]
         ++ (match o.extraBabelIncludes with
             | some incs => incs.map (extraIncludeRule cwd bu)
             | none => [])
         ++ [htmlRule fileP] ++ cssR)

/-- Lines 284-368 of the source: the full ordered rule list. -/
def buildModuleRules (o : Opts) (e : Env) (x : Ext) (cwd : String) (eo : EslintOptions)
    (bu : List UseItem) (cssR : List Rule) : Except String (List Rule) :=
  match preLintRules e x cwd eo with
  | .error s => .error s
  | .ok pre =>
    match mainRules o x cwd bu cssR with
    | .error s => .error s
    | .ok main => .ok (pre ++ main)

/-- Lines 162-165 of the source: one code-splitting plugin per `opts.commons` entry. -/
def commonsPlugins (o : Opts) : List Plugin :=
  (o.commons.getD []).map Plugin.commonsChunk

/-- Line 168 of the source: the output directory — the explicit override or
`dist` under the working directory. -/
def outputPathOf (o : Opts) (cwd : String) : String :=
  jsOrStr o.outputPath (pathResolve cwd "dist")

/-- Lines 170-181 of the source: the user's static-copy plugin, then — when a
conventional `public` directory exists under the working directory — an
implicit copy of it into the output directory. -/
def copyPluginsOf (o : Opts) (x : Ext) (cwd outputPath : String) : List Plugin :=
  (match o.copy with
   | some c => [Plugin.copyPlugin c]
   | none => [])
  ++ (if x.fsExists (pathResolve cwd "public") then
        [Plugin.copyPlugin [(pathResolve cwd "public", pathResolve cwd outputPath)]]
      else [])

/-- Lines 370-461 of the source: the plugin list — the mode-selected base set,
then the compression pass, the define-style constant injector, the analysis
server, case-sensitivity enforcement, the loader-options context fix, the
opt-in type checker, locale stripping, code-splitting plugins and static-copy
plugins. -/
def buildPlugins (o : Opts) (e : Env) (x : Ext) (isDev : Bool)
    (cwd cssH outputPath : String) : List Plugin :=
  (if isDev then
     [Plugin.hotModuleReplacement,
      Plugin.watchMissingNodeModules (pathJoin cwd "node_modules"),
      Plugin.systemBell]
     ++ (if optTruthy o.devtool then [] else [Plugin.sourceMapDevTool])
   else
     [Plugin.occurrenceOrder,
      Plugin.moduleConcatenation,
      Plugin.extractText (stylesheetFilenameTemplate cssH) true]
     ++ (match o.manifest with
         | some m => [Plugin.manifestPlugin "manifest.json" (some m)]
         | none => []))
  ++ (if isDev || e.noCompress then [] else [Plugin.uglifyJs (optTruthy o.devtool)])
  ++ [Plugin.definePlugin (if isDev then "development" else "production")
        (if optTruthy e.socketServer then e.socketServer else none)
        (o.define.getD [])]
  ++ (if e.analyze then [Plugin.bundleAnalyzer (e.analyzePort.getD 8888)] else [])
  ++ [Plugin.caseSensitivePaths, Plugin.loaderOptionsPlugin x.dirnameVal]
  ++ (if e.tsTypecheck then [Plugin.forkTsChecker] else [])
  ++ (if o.ignoreMomentLocale then [Plugin.ignoreMomentLocale] else [])
  ++ commonsPlugins o
  ++ copyPluginsOf o x cwd outputPath

/-- Lines 260-282 of the source: the resolution configuration. -/
def buildResolveSection (o : Opts) (x : Ext) (babelRuntimeP : String) : ResolveSection :=
  { modules := [pathResolve x.dirnameVal "../node_modules", "node_modules"]
      ++ o.extraResolveModules.getD []
  , extensions := o.extraResolveExtensions.getD []
      ++ [".web.js", ".web.jsx", ".web.ts", ".web.tsx", ".js", ".json", ".jsx", ".ts", ".tsx"]
  , aliasMap := [("@babel/runtime", pathDirname babelRuntimeP)] ++ o.aliasMap }

/-- Lines 477-479 of the source: after the whole descriptor is built, a set
`PUBLIC_PATH` environment variable overwrites `output.publicPath` with its
value, the trailing separator normalized to exactly one. -/
def applyPublicPathOverride (e : Env) (c : Config) : Config :=
  if optTruthy e.publicPathEnv then
    { c with output :=
        { c.output with publicPath := some (stripLastSlash (e.publicPathEnv.getD "") ++ "/") } }
  else c

/-- Lines 27-482 of the source: one synthesis run.  The fatal precondition is
the missing (or JS-falsy empty) working directory; every other failure mode is
a thrown `require.resolve`, surfaced here as `Except.error` with the name that
did not resolve, in the source's evaluation order.  The returned value is the
descriptor handed to the external override hook. -/
def getConfig (o : Opts) (e : Env) (x : Ext) : Except String Config :=
  match o.cwd with
  | none => .error "opts.cwd must be specified"
  | some cwd =>
  if cwd == "" then .error "opts.cwd must be specified" else
  let isDev := isDevOf e
  match buildCssRules (mkCssCtx o e x) with
  | .error s => .error s
  | .ok cssR0 =>
  let cssR := rewriteCssRulesForProd isDev cssR0
  let outputPath := outputPathOf o cwd
  match babelUse o e x with
  | .error s => .error s
  | .ok bu =>
  match defaultEslintOptions x with
  | .error s => .error s
  | .ok eo0 =>
  let eo := applyUserEslintrc e x (applyUserEslintPath e x cwd eo0)
  match requireResolve x "@babel/runtime/package" with
  | .error s => .error s
  | .ok babelRuntimeP =>
  match buildModuleRules o e x cwd eo bu cssR with
  | .error s => .error s
  | .ok rules =>
    .ok (applyPublicPathOverride e
      { bail := !isDev
      , devtool := jsOrUndef o.devtool
      , entry := o.entry
      , output :=
          { path := outputPath
          , pathinfo := isDev
          , filename := scriptFilenameTemplate (jsHash isDev o.hash)
          , publicPath := jsOrUndef o.publicPath
          , chunkFilename := chunkFilenameTemplate (jsHash isDev o.hash) }
      , resolveConfig := buildResolveSection o x babelRuntimeP
      , moduleRules := rules
      , plugins := buildPlugins o e x isDev cwd (cssHash isDev o.hash) outputPath
      , externals := o.externals
      , nodeShims :=
          [("dgram", "empty"), ("fs", "empty"), ("net", "empty"),
           ("tls", "empty"), ("child_process", "empty")]
      , performanceHintsOff := isDev })

/-! ### Observation predicates over the embedded descriptor -/

/-- The items of a rule's chain, whether still inline or already wrapped by the
extraction rewrite; a rule without a `use` array has no chain. -/
def itemsOf : Option RuleUse → List UseItem
  | some (.chain items) => items
  | some (.extractedChain items) => items
  | none => []

/-- Erase the module-scoping options (`modules`, `localIdentName`) of a module
loader item; any other item is kept as it is. -/
def stripScopeItem : UseItem → UseItem
  | .obj l (some (.cssOpts co)) =>
      .obj l (some (.cssOpts { co with modules := none, localIdentName := none }))
  | it => it

/-- Is this chain item the vendor-prefixing post-processor step? -/
def isPostcssItem : UseItem → Bool
  | .obj _ (some (.postcssOpts _)) => true
  | _ => false

/-- Is this chain item the first preprocessor (less) step? -/
def isLessItem : UseItem → Bool
  | .obj _ (some (.lessOpts _)) => true
  | _ => false

/-- Is this chain item the second preprocessor (sass) step? -/
def isSassItem : UseItem → Bool
  | .obj _ (some (.sassOpts _)) => true
  | _ => false

/-- Is this chain item the script-lint loader? -/
def isEslintItem : UseItem → Bool
  | .obj _ (some (.eslintOpts _)) => true
  | _ => false

/-- Is this chain item the type-lint loader? -/
def isTslintItem : UseItem → Bool
  | .obj _ (some (.tslintOpts _)) => true
  | _ => false

/-- Does the rule's chain contain the post-processor step? -/
def hasPostcssStep (r : Rule) : Bool := (itemsOf r.use).any isPostcssItem

/-- Does the rule's chain contain the first preprocessor step? -/
def hasLessStep (r : Rule) : Bool := (itemsOf r.use).any isLessItem

/-- Does the rule's chain contain the second preprocessor step? -/
def hasSassStep (r : Rule) : Bool := (itemsOf r.use).any isSassItem

/-- Does the rule's chain contain the script-lint loader? -/
def usesEslintOptions (r : Rule) : Bool := (itemsOf r.use).any isEslintItem

/-- Does the rule's chain contain the type-lint loader? -/
def usesTslintOptions (r : Rule) : Bool := (itemsOf r.use).any isTslintItem

/-- The two style rules of one language pair agree up to module scoping: equal
chains once scoping options are erased, and the same presence of the
post-processor and of each preprocessor step. -/
def stylePairMatches (u v : Rule) : Prop :=
  (itemsOf u.use).map stripScopeItem = (itemsOf v.use).map stripScopeItem ∧
  hasPostcssStep u = hasPostcssStep v ∧
  hasLessStep u = hasLessStep v ∧
  hasSassStep u = hasSassStep v

/-- Does the string end in a path separator? -/
def endsWithSlashChar (s : String) : Bool :=
  match s.toList.getLast? with
  | some c => c == '/'
  | none => false

/-! ### Proof-support shapes for the style rules -/

/-- The fixed head of every style chain: injector, module loader (scoped when
`modded`), post-processor. -/
def baseChain (c : CssCtx) (modded : Bool) (sl cp pp : String) : List UseItem :=
  [UseItem.str sl,
   UseItem.obj cp (some (LoaderOptions.cssOpts
     (if modded then applyCssModulesConfig c c.cssOptions else c.cssOptions))),
   UseItem.obj pp (some (LoaderOptions.postcssOpts c.postcssOptions))]

/-- The less step as `getCSSLoader` builds it. -/
def lessItemOf (c : CssCtx) (lp : String) : UseItem :=
  UseItem.obj lp (some (LoaderOptions.lessOpts c.lessOptions))

/-- The six style rules, written out for a resolution environment where the
injector, module loader, post-processor and first preprocessor resolve to
`sl`, `cp`, `pp`, `lp` and the optional second preprocessor contributes
`sassPart`. -/
def cssRulesExplicit (c : CssCtx) (sl cp pp lp : String) (sassPart : List UseItem) : List Rule :=
  [ { test := some "\\.css$"
    , excludeSpec := some (.single (.regex "node_modules"))
    , use := some (.chain (baseChain c true sl cp pp)) }
  , { test := some "\\.css$"
    , includeSpec := some (.regex "node_modules")
    , use := some (.chain (baseChain c false sl cp pp)) }
  , { test := some "\\.less$"
    , excludeSpec := some (.single (.regex "node_modules"))
    , use := some (.chain (baseChain c true sl cp pp ++ [lessItemOf c lp])) }
  , { test := some "\\.less$"
    , includeSpec := some (.regex "node_modules")
    , use := some (.chain (baseChain c false sl cp pp ++ [lessItemOf c lp])) }
  , { test := some "\\.(sass|scss)$"
    , excludeSpec := some (.single (.regex "node_modules"))
    , use := some (.chain (baseChain c true sl cp pp ++ sassPart)) }
  , { test := some "\\.(sass|scss)$"
    , includeSpec := some (.regex "node_modules")
    , use := some (.chain (baseChain c false sl cp pp ++ sassPart)) } ]

/-! ### Concrete instances used by witnesses and counterexamples -/

/-- A resolution environment where every tool resolves to its own name, no file
exists, and both readers fail. -/
def xAll : Ext :=
  { resolveProbe := fun n => some n
  , fsExists := fun _ => false
  , readManifest := fun _ => .error ()
  , readRc := fun _ => .error ()
  , resolveFrom := fun _ _ => .error ()
  , dirnameVal := "/af-webpack/src" }

/-- `xAll` with the first preprocessor's tool unresolvable. -/
def xNoLess : Ext :=
  { xAll with resolveProbe := fun n => if n == "less-loader" then none else some n }

/-- `xAll` with the second preprocessor's tool unresolvable. -/
def xNoSass : Ext :=
  { xAll with resolveProbe := fun n => if n == "sass-loader" then none else some n }

/-- A bare options record with only the working directory set. -/
def optsW : Opts := { cwd := some "/app" }

/-- Development-mode environment flags. -/
def envDevW : Env := { nodeEnv := some "development" }

/-- Production-mode environment flags. -/
def envProdW : Env := { nodeEnv := some "production" }

/-- An environment whose process working directory is `/proc`. -/
def envProcW : Env := { processCwd := "/proc" }

/-- The closed-over style context of `optsW` under development flags. -/
def ctxW : CssCtx := mkCssCtx optsW envDevW xAll

/-- The default lint options as they come out of `defaultEslintOptions xAll`. -/
def eoDefaultW : EslintOptions :=
  { formatter := "eslintFormatter"
  , baseConfig := some [("extends", RcVal.arr ["eslint-config-umi"])]
  , ignore := false
  , eslintPath := "eslint"
  , useEslintrc := false }

/-- Options record with an explicit public-path. -/
def optsPPW : Opts := { cwd := some "/app", publicPath := some "/a/" }

/-- Environment with a `PUBLIC_PATH` override alongside an explicit option. -/
def envPPW : Env :=
  { nodeEnv := some "development", publicPathEnv := some "/b", processCwd := "/app" }

/-- A minimal descriptor for exercising the public-path override in isolation. -/
def configW : Config :=
  { bail := false
  , devtool := none
  , entry := none
  , output :=
      { path := "/app/dist", pathinfo := true, filename := "[name].js"
      , publicPath := some "/a/", chunkFilename := "[name].async.js" }
  , resolveConfig := { modules := [], extensions := [], aliasMap := [] }
  , moduleRules := []
  , plugins := []
  , externals := none
  , nodeShims := []
  , performanceHintsOff := true }

/-- Environment flags for the manifest-guard run: production, process cwd `/proc`. -/
def envC3 : Env := { nodeEnv := some "production", processCwd := "/proc" }

/-- A manifest that declares some dependency and an (empty) `devDependencies`
object, but never the lint engine. -/
def manifestC3 : Manifest := { dependencies := some ["react"], devDependencies := some [] }

/-- A collaborator record where the process-cwd manifest is `manifestC3` and the
lint engine resolves from the project directory. -/
def xBugC3 : Ext :=
  { xAll with
    readManifest := fun p => if p == "/proc/package.json" then .ok manifestC3 else .error ()
  , resolveFrom := fun base n =>
      if base == "/app" && n == "eslint" then .ok "/app/node_modules/eslint/bin/eslint.js"
      else .error () }

/-- A collaborator record with a project-local rc file whose `extends` key holds
the empty (falsy) string. -/
def xRcExtendsEmptyW : Ext :=
  { xAll with
    fsExists := fun p => p == "/proc/.eslintrc"
  , readRc := fun p =>
      if p == "/proc/.eslintrc" then .ok [("extends", RcVal.str "")] else .error () }

/-- A collaborator record with a project-local rc file carrying only a `rules` key. -/
def xRcPlainW : Ext :=
  { xAll with
    fsExists := fun p => p == "/proc/.eslintrc"
  , readRc := fun p =>
      if p == "/proc/.eslintrc" then .ok [("rules", RcVal.objVal)] else .error () }

/-- An environment whose process working directory differs from the supplied
working directory `/app`. -/
def envElsewhereW : Env := { processCwd := "/elsewhere" }

/-- A collaborator record whose manifest lives at the supplied working
directory `/app` and declares the lint engine, resolvable from `/app`. -/
def xManifestAtCwdW : Ext :=
  { xAll with
    readManifest := fun p =>
      if p == "/app/package.json" then
        .ok { dependencies := some ["eslint"], devDependencies := none }
      else .error ()
  , resolveFrom := fun base n =>
      if base == "/app" && n == "eslint" then .ok "/app/node_modules/eslint/bin/eslint.js"
      else .error () }

/-- A collaborator record where a conventional `public` directory exists under `/app`. -/
def xPubW : Ext := { xAll with fsExists := fun p => p == "/app/public" }

/-- The non-pre-pass rules `mainRules` produces for `optsW` under `xAll` with an
empty script chain and no style rules. -/
def restW : List Rule :=
  [urlRule "url-loader", jsRule [], tsRule [] "awesome-typescript-loader", htmlRule "file-loader"]

/-! ### Helper lemmas -/

theorem requireResolve_ok {x : Ext} {n p : String} (h : x.resolveProbe n = some p) :
    requireResolve x n = .ok p := by
  simp [requireResolve, h]

theorem requireResolve_err {x : Ext} {n : String} (h : x.resolveProbe n = none) :
    requireResolve x n = .error n := by
  simp [requireResolve, h]

/-- Evaluation shape of `getCSSLoader` when the three fixed chain steps resolve
and the two preprocessor parts are given by their guards. -/
theorem getCSSLoader_eval (c : CssCtx) (g : GetCSSLoaderOpts) (sl cp pp : String)
    (lessPart sassPart : List UseItem)
    (hsl : c.x.resolveProbe "style-loader" = some sl)
    (hcp : c.x.resolveProbe "css-loader" = some cp)
    (hpp : c.x.resolveProbe "postcss-loader" = some pp)
    (hless : (if g.less then
        (requireResolve c.x "less-loader").map
          (fun p => [UseItem.obj p (some (LoaderOptions.lessOpts c.lessOptions))])
      else .ok []) = .ok lessPart)
    (hsass : (if g.sass && (c.x.resolveProbe "sass-loader").isSome then
        (requireResolve c.x "sass-loader").map
          (fun p => [UseItem.obj p (some (LoaderOptions.sassOpts g.sassOptions))])
      else .ok []) = .ok sassPart) :
    getCSSLoader c g = .ok (baseChain c g.cssModules sl cp pp ++ lessPart ++ sassPart) := by
  unfold getCSSLoader
  rw [requireResolve_ok hsl, requireResolve_ok hcp, requireResolve_ok hpp, hless, hsass]
  rfl

/-- Evaluation shape of `buildCssRules` when the injector, module loader,
post-processor and first preprocessor resolve and the second preprocessor's
soft probe yields `sassPart`. -/
theorem buildCssRules_eval (c : CssCtx) (sl cp pp lp : String) (sassPart : List UseItem)
    (hsl : c.x.resolveProbe "style-loader" = some sl)
    (hcp : c.x.resolveProbe "css-loader" = some cp)
    (hpp : c.x.resolveProbe "postcss-loader" = some pp)
    (hlp : c.x.resolveProbe "less-loader" = some lp)
    (hsass : (c.x.resolveProbe "sass-loader" = none ∧ sassPart = []) ∨
        (∃ sp, c.x.resolveProbe "sass-loader" = some sp ∧
          sassPart = [UseItem.obj sp (some (LoaderOptions.sassOpts c.sassUserOptions))])) :
    buildCssRules c = .ok (cssRulesExplicit c sl cp pp lp sassPart) := by
  have hlessT : (if true then
        (requireResolve c.x "less-loader").map
          (fun p => [UseItem.obj p (some (LoaderOptions.lessOpts c.lessOptions))])
      else .ok []) = .ok [lessItemOf c lp] := by
    rw [requireResolve_ok hlp]; rfl
  rcases hsass with ⟨hn, rfl⟩ | ⟨sp, hsp, rfl⟩
  · have hsassN : ∀ (so : Option String), (if true && (c.x.resolveProbe "sass-loader").isSome then
          (requireResolve c.x "sass-loader").map
            (fun p => [UseItem.obj p (some (LoaderOptions.sassOpts so))])
        else .ok []) = .ok [] := by
      intro so; rw [hn]; rfl
    unfold buildCssRules
    rw [getCSSLoader_eval c { cssModules := true } sl cp pp [] [] hsl hcp hpp rfl rfl,
        getCSSLoader_eval c {} sl cp pp [] [] hsl hcp hpp rfl rfl,
        getCSSLoader_eval c { cssModules := true, less := true } sl cp pp [lessItemOf c lp] []
          hsl hcp hpp hlessT rfl,
        getCSSLoader_eval c { less := true } sl cp pp [lessItemOf c lp] []
          hsl hcp hpp hlessT rfl,
        getCSSLoader_eval c { cssModules := true, sass := true, sassOptions := c.sassUserOptions }
          sl cp pp [] [] hsl hcp hpp rfl (hsassN c.sassUserOptions),
        getCSSLoader_eval c { sass := true, sassOptions := c.sassUserOptions }
          sl cp pp [] [] hsl hcp hpp rfl (hsassN c.sassUserOptions)]
    rfl
  · have hsassS : ∀ (so : Option String), (if true && (c.x.resolveProbe "sass-loader").isSome then
          (requireResolve c.x "sass-loader").map
            (fun p => [UseItem.obj p (some (LoaderOptions.sassOpts so))])
        else .ok []) = .ok [UseItem.obj sp (some (LoaderOptions.sassOpts so))] := by
      intro so; rw [hsp, requireResolve_ok hsp]; rfl
    unfold buildCssRules
    rw [getCSSLoader_eval c { cssModules := true } sl cp pp [] [] hsl hcp hpp rfl rfl,
        getCSSLoader_eval c {} sl cp pp [] [] hsl hcp hpp rfl rfl,
        getCSSLoader_eval c { cssModules := true, less := true } sl cp pp [lessItemOf c lp] []
          hsl hcp hpp hlessT rfl,
        getCSSLoader_eval c { less := true } sl cp pp [lessItemOf c lp] []
          hsl hcp hpp hlessT rfl,
        getCSSLoader_eval c { cssModules := true, sass := true, sassOptions := c.sassUserOptions }
          sl cp pp [] [UseItem.obj sp (some (LoaderOptions.sassOpts c.sassUserOptions))]
          hsl hcp hpp rfl (hsassS c.sassUserOptions),
        getCSSLoader_eval c { sass := true, sassOptions := c.sassUserOptions }
          sl cp pp [] [UseItem.obj sp (some (LoaderOptions.sassOpts c.sassUserOptions))]
          hsl hcp hpp rfl (hsassS c.sassUserOptions)]
    rfl

/-- Erasing the scoping options makes the scoped and the unscoped module-loader
item coincide. -/
theorem stripScope_modules (c : CssCtx) (cp : String) :
    stripScopeItem (UseItem.obj cp (some (LoaderOptions.cssOpts (applyCssModulesConfig c c.cssOptions))))
      = stripScopeItem (UseItem.obj cp (some (LoaderOptions.cssOpts c.cssOptions))) := by
  unfold applyCssModulesConfig
  split <;> rfl

/-- `applyCssModulesConfig` only touches the scoping fields: `importLoaders` is kept. -/
theorem applyCssModulesConfig_importLoaders (c : CssCtx) (co : CssLoaderOptions) :
    (applyCssModulesConfig c co).importLoaders = co.importLoaders := by
  unfold applyCssModulesConfig; split <;> rfl

/-- `applyCssModulesConfig` only touches the scoping fields: `minimize` is kept. -/
theorem applyCssModulesConfig_minimize (c : CssCtx) (co : CssLoaderOptions) :
    (applyCssModulesConfig c co).minimize = co.minimize := by
  unfold applyCssModulesConfig; split <;> rfl

/-- `applyCssModulesConfig` only touches the scoping fields: `sourceMap` is kept. -/
theorem applyCssModulesConfig_sourceMap (c : CssCtx) (co : CssLoaderOptions) :
    (applyCssModulesConfig c co).sourceMap = co.sourceMap := by
  unfold applyCssModulesConfig; split <;> rfl

/-- C1: for every options record, in production mode the constructed style-rule
chain rewrite replaces the runtime style-injector — the first chain element, the
resolved `style-loader` — of all six style rules with the extraction wrapper,
keeping the remaining chain elements in their original order; in development
mode no style rule's chain is rewritten. -/
theorem c1_production_style_rewrite (o : Opts) (e : Env) (x : Ext)
    (sl cp pp lp : String) (sassPart : List UseItem)
    (hsl : x.resolveProbe "style-loader" = some sl)
    (hcp : x.resolveProbe "css-loader" = some cp)
    (hpp : x.resolveProbe "postcss-loader" = some pp)
    (hlp : x.resolveProbe "less-loader" = some lp)
    (hsass : (x.resolveProbe "sass-loader" = none ∧ sassPart = []) ∨
        (∃ sp, x.resolveProbe "sass-loader" = some sp ∧
          sassPart = [UseItem.obj sp (some (LoaderOptions.sassOpts (mkCssCtx o e x).sassUserOptions))])) :
    ∃ rs, buildCssRules (mkCssCtx o e x) = .ok rs ∧
      rs.length = 6 ∧
      rewriteCssRulesForProd true rs = rs ∧
      rewriteCssRulesForProd false rs = rs.map extractCssRule ∧
      ∀ r ∈ rs, ∃ rest, r.use = some (.chain (UseItem.str sl :: rest)) ∧
        extractCssRule r = { r with use := some (.extractedChain rest) } := by
  have hrs := buildCssRules_eval (mkCssCtx o e x) sl cp pp lp sassPart hsl hcp hpp hlp hsass
  refine ⟨_, hrs, rfl, rfl, rfl, ?_⟩
  intro r hr
  simp only [cssRulesExplicit, List.mem_cons, List.not_mem_nil, or_false] at hr
  rcases hr with rfl | rfl | rfl | rfl | rfl | rfl <;> exact ⟨_, rfl, rfl⟩

/-- Witness for C1 at a concrete options record, development environment and a
resolution environment where every tool resolves to its own name. -/
theorem c1_production_style_rewrite_witness :
    ∃ rs, buildCssRules (mkCssCtx optsW envDevW xAll) = .ok rs ∧
      rs.length = 6 ∧
      rewriteCssRulesForProd true rs = rs ∧
      rewriteCssRulesForProd false rs = rs.map extractCssRule ∧
      ∀ r ∈ rs, ∃ rest, r.use = some (.chain (UseItem.str "style-loader" :: rest)) ∧
        extractCssRule r = { r with use := some (.extractedChain rest) } :=
  c1_production_style_rewrite optsW envDevW xAll
    "style-loader" "css-loader" "postcss-loader" "less-loader"
    [UseItem.obj "sass-loader" (some (LoaderOptions.sassOpts none))]
    rfl rfl rfl rfl (Or.inr ⟨"sass-loader", rfl, rfl⟩)

/-- C7: for each style language the project-scoped rule and the
dependency-scoped rule have chains that differ only in whether module-scoping
options are passed to the module loader: erasing the scoping options makes the
chains equal, and the presence of the post-processor step and of each
preprocessor step is identical inside every pair. -/
theorem c7_style_pair_scoping (o : Opts) (e : Env) (x : Ext)
    (sl cp pp lp : String) (sassPart : List UseItem)
    (hsl : x.resolveProbe "style-loader" = some sl)
    (hcp : x.resolveProbe "css-loader" = some cp)
    (hpp : x.resolveProbe "postcss-loader" = some pp)
    (hlp : x.resolveProbe "less-loader" = some lp)
    (hsass : (x.resolveProbe "sass-loader" = none ∧ sassPart = []) ∨
        (∃ sp, x.resolveProbe "sass-loader" = some sp ∧
          sassPart = [UseItem.obj sp (some (LoaderOptions.sassOpts (mkCssCtx o e x).sassUserOptions))])) :
    ∃ r1 r2 r3 r4 r5 r6, buildCssRules (mkCssCtx o e x) = .ok [r1, r2, r3, r4, r5, r6] ∧
      stylePairMatches r1 r2 ∧ stylePairMatches r3 r4 ∧ stylePairMatches r5 r6 := by
  have hrs := buildCssRules_eval (mkCssCtx o e x) sl cp pp lp sassPart hsl hcp hpp hlp hsass
  refine ⟨_, _, _, _, _, _, hrs, ?_, ?_, ?_⟩ <;>
    refine ⟨?_, ?_, ?_, ?_⟩ <;>
    simp [itemsOf, baseChain, hasPostcssStep, hasLessStep, hasSassStep,
      List.any_append, List.map_append, stripScope_modules, lessItemOf,
      isPostcssItem, isLessItem, isSassItem, stripScopeItem,
      applyCssModulesConfig_importLoaders, applyCssModulesConfig_minimize,
      applyCssModulesConfig_sourceMap]

/-- Witness for C7 at a concrete options record and a resolution environment
where every tool resolves to its own name. -/
theorem c7_style_pair_scoping_witness :
    ∃ r1 r2 r3 r4 r5 r6, buildCssRules (mkCssCtx optsW envDevW xAll) = .ok [r1, r2, r3, r4, r5, r6] ∧
      stylePairMatches r1 r2 ∧ stylePairMatches r3 r4 ∧ stylePairMatches r5 r6 :=
  c7_style_pair_scoping optsW envDevW xAll
    "style-loader" "css-loader" "postcss-loader" "less-loader"
    [UseItem.obj "sass-loader" (some (LoaderOptions.sassOpts none))]
    rfl rfl rfl rfl (Or.inr ⟨"sass-loader", rfl, rfl⟩)

/-- Helper: a requested first preprocessor whose tool does not resolve makes
`getCSSLoader` fail with that resolution error. -/
theorem getCSSLoader_less_err (c : CssCtx) (g : GetCSSLoaderOpts) (sl cp pp : String)
    (hg : g.less = true)
    (hsl : c.x.resolveProbe "style-loader" = some sl)
    (hcp : c.x.resolveProbe "css-loader" = some cp)
    (hpp : c.x.resolveProbe "postcss-loader" = some pp)
    (hn : c.x.resolveProbe "less-loader" = none) :
    getCSSLoader c g = .error "less-loader" := by
  unfold getCSSLoader
  rw [requireResolve_ok hsl, requireResolve_ok hcp, requireResolve_ok hpp, hg,
    requireResolve_err hn]
  rfl

/-- C8 (amended): the soft capability probe exists only for the second
preprocessor — an unresolvable `sass-loader` silently drops that step from the
produced style rules and all six rules are still built; an unresolvable
`less-loader` instead propagates as a synthesis error. -/
theorem c8_preprocessor_probe_asymmetry (o : Opts) (e : Env) (x : Ext) (sl cp pp : String)
    (hsl : x.resolveProbe "style-loader" = some sl)
    (hcp : x.resolveProbe "css-loader" = some cp)
    (hpp : x.resolveProbe "postcss-loader" = some pp) :
    (x.resolveProbe "sass-loader" = none →
      ∀ lp, x.resolveProbe "less-loader" = some lp →
        ∃ rs, buildCssRules (mkCssCtx o e x) = .ok rs ∧ rs.length = 6 ∧
          ∀ r ∈ rs, hasSassStep r = false) ∧
    (x.resolveProbe "less-loader" = none →
      buildCssRules (mkCssCtx o e x) = .error "less-loader") := by
  constructor
  · intro hn lp hlp
    have hrs := buildCssRules_eval (mkCssCtx o e x) sl cp pp lp [] hsl hcp hpp hlp
      (Or.inl ⟨hn, rfl⟩)
    refine ⟨_, hrs, rfl, ?_⟩
    intro r hr
    simp only [cssRulesExplicit, List.mem_cons, List.not_mem_nil, or_false] at hr
    rcases hr with rfl | rfl | rfl | rfl | rfl | rfl <;>
      simp [hasSassStep, itemsOf, baseChain, lessItemOf, isSassItem, List.any_append]
  · intro hn
    unfold buildCssRules
    rw [getCSSLoader_eval (mkCssCtx o e x) { cssModules := true } sl cp pp [] []
          hsl hcp hpp rfl rfl,
        getCSSLoader_eval (mkCssCtx o e x) {} sl cp pp [] [] hsl hcp hpp rfl rfl,
        getCSSLoader_less_err (mkCssCtx o e x) { cssModules := true, less := true }
          sl cp pp rfl hsl hcp hpp hn]

/-- Witness for C8: with `sass-loader` unresolvable and everything else
resolving, all six style rules are still produced and none carries a sass step. -/
theorem c8_preprocessor_probe_asymmetry_witness :
    ∃ rs, buildCssRules (mkCssCtx optsW envProdW xNoSass) = .ok rs ∧ rs.length = 6 ∧
      ∀ r ∈ rs, hasSassStep r = false :=
  (c8_preprocessor_probe_asymmetry optsW envProdW xNoSass
    "style-loader" "css-loader" "postcss-loader" rfl rfl rfl).1 rfl "less-loader" rfl

/-- Counterexample to C8 as stated: with the first preprocessor's tool
unresolvable, synthesis does not silently omit the variant — the whole run
fails with the resolution error instead of returning a descriptor. -/
theorem c8_less_loader_counterexample :
    getConfig optsW envProdW xNoLess = .error "less-loader" := rfl

/-- Helper: the head surviving a `dropWhile` fails the predicate. -/
theorem head_dropWhile_false (p : Char → Bool) :
    ∀ (l : List Char) (c : Char), (l.dropWhile p).head? = some c → p c = false := by
  intro l
  induction l with
  | nil => intro c h; simp [List.dropWhile] at h
  | cons a t ih =>
    intro c h
    by_cases hp : p a
    · rw [List.dropWhile_cons_of_pos hp] at h
      exact ih c h
    · rw [List.dropWhile_cons_of_neg hp] at h
      simp only [List.head?_cons, Option.some.injEq] at h
      subst h
      exact Bool.eq_false_iff.mpr hp

/-- The spec-modelled normalization leaves no trailing separator behind. -/
theorem stripLastSlash_no_trailing (s : String) :
    endsWithSlashChar (stripLastSlash s) = false := by
  unfold stripLastSlash endsWithSlashChar
  have htl : (String.mk ((s.toList.reverse.dropWhile (fun c => c == '/')).reverse)).toList
      = (s.toList.reverse.dropWhile (fun c => c == '/')).reverse := rfl
  rw [htl, List.getLast?_reverse]
  cases hh : (s.toList.reverse.dropWhile (fun c => c == '/')).head? with
  | none => rfl
  | some ch => simpa using head_dropWhile_false (fun c => c == '/') _ ch hh

/-- C2 (amended): the environment public-path override, when set, takes
precedence over the explicit public-path option and is normalized to exactly
one trailing separator; only when the override is unset does the explicit
option (a JS-falsy empty string collapsing to unset) decide the descriptor's
public-path. -/
theorem c2_public_path_precedence (o : Opts) (e : Env) (c : Config) :
    (applyPublicPathOverride e
        { c with output := { c.output with publicPath := jsOrUndef o.publicPath } }).output.publicPath
      = (if optTruthy e.publicPathEnv then
           some (stripLastSlash (e.publicPathEnv.getD "") ++ "/")
         else jsOrUndef o.publicPath) ∧
    (optTruthy e.publicPathEnv = true →
      ∃ base, (applyPublicPathOverride e
          { c with output := { c.output with publicPath := jsOrUndef o.publicPath } }).output.publicPath
        = some (base ++ "/") ∧ endsWithSlashChar base = false) := by
  constructor
  · unfold applyPublicPathOverride
    split <;> rfl
  · intro ht
    refine ⟨stripLastSlash (e.publicPathEnv.getD ""), ?_, stripLastSlash_no_trailing _⟩
    unfold applyPublicPathOverride
    rw [ht]
    rfl

/-- Counterexample to C2 as stated: with an explicit public-path option
supplied and the environment override set, the returned descriptor carries the
override, not the explicit option. -/
theorem c2_env_override_counterexample :
    optsPPW.publicPath = some "/a/" ∧
    envPPW.publicPathEnv = some "/b" ∧
    (getConfig optsPPW envPPW xAll).map (fun c => c.output.publicPath) = .ok (some "/b/") ∧
    (some "/b/" : Option String) ≠ some "/a/" := by
  refine ⟨rfl, rfl, rfl, by decide⟩

/-- C3, evaluated at the failing input: the manifest declares the lint engine
nowhere (its `dependencies` holds only `react`, its `devDependencies` object is
empty), yet because the guard `dependencies.eslint || devDependencies` only
tests that a `devDependencies` field exists, the synthesizer swaps in the
project-resolved lint-engine binary instead of keeping the bundled one. -/
theorem c3_devdeps_guard_eval :
    manifestC3.dependencies = some ["react"] ∧
    (["react"] : List String).contains "eslint" = false ∧
    manifestC3.devDependencies = some [] ∧
    (([] : List String).contains "eslint") = false ∧
    xBugC3.readManifest (manifestPath envC3) = .ok manifestC3 ∧
    eoDefaultW.eslintPath = "eslint" ∧
    applyUserEslintPath envC3 xBugC3 "/app" eoDefaultW
      = { eoDefaultW with eslintPath := "/app/node_modules/eslint/bin/eslint.js" } := by
  exact ⟨rfl, rfl, rfl, rfl, rfl, rfl, rfl⟩

/-- Helper: a lookup that succeeds in `a` still succeeds after `a`'s keys are
rewritten by the merge map and any tail is appended. -/
theorem rcLookup_mapMerge_isSome (b : RcMap) :
    ∀ (a rest : RcMap) (k : String),
      (rcLookup a k).isSome = true →
      (rcLookup ((a.map (fun kv => match rcLookup b kv.1 with
          | some v => (kv.1, v)
          | none => kv)) ++ rest) k).isSome = true := by
  intro a
  induction a with
  | nil => intro rest k h; simp [rcLookup] at h
  | cons hd t ih =>
    intro rest k h
    obtain ⟨k1, v1⟩ := hd
    simp only [rcLookup] at h
    by_cases hk : k1 == k
    · cases hb : rcLookup b k1 <;> simp [rcLookup, hb, hk]
    · simp only [hk, Bool.false_eq_true, if_false] at h
      cases hb : rcLookup b k1 <;> simp only [List.map_cons, List.cons_append, rcLookup, hb, hk,
        Bool.false_eq_true, if_false] <;> exact ih rest k h

/-- Keys of the base rule-set survive the shallow merge. -/
theorem rcMerge_keeps_keys (a b : RcMap) (k : String)
    (h : (rcLookup a k).isSome = true) :
    (rcLookup (rcMerge a b) k).isSome = true := by
  unfold rcMerge
  exact rcLookup_mapMerge_isSome b a _ k h

/-- C4 (amended): when the project-local lint-configuration file exists and
parses, a truthy `extends` value makes it authoritative — the bundled base
rule-set is dropped and the no-config tolerance flags are flipped; a missing
or falsy `extends` value instead shallow-merges the file's keys over the
default base rule-set, which keeps every default key present; a parse failure
leaves the lint configuration in its prior state and synthesis continues. -/
theorem c4_eslintrc_resolution (e : Env) (x : Ext) (eo : EslintOptions) (userRc : RcMap)
    (hex : x.fsExists (eslintrcPath e) = true) :
    (x.readRc (eslintrcPath e) = .ok userRc →
      (optRcTruthy (rcLookup userRc "extends") = true →
        applyUserEslintrc e x eo = { eo with useEslintrc := true, baseConfig := none, ignore := true }) ∧
      (optRcTruthy (rcLookup userRc "extends") = false →
        applyUserEslintrc e x eo
            = { eo with baseConfig := some (rcMerge (eo.baseConfig.getD []) userRc) } ∧
        ∀ k, (rcLookup (eo.baseConfig.getD []) k).isSome = true →
          (rcLookup (rcMerge (eo.baseConfig.getD []) userRc) k).isSome = true)) ∧
    (∀ err, x.readRc (eslintrcPath e) = .error err → applyUserEslintrc e x eo = eo) := by
  constructor
  · intro hok
    constructor
    · intro ht
      unfold applyUserEslintrc
      rw [hex, hok] at *
      simp [ht]
    · intro hf
      constructor
      · unfold applyUserEslintrc
        rw [hex, hok]
        simp [hf]
      · intro k hk
        exact rcMerge_keeps_keys _ _ k hk
  · intro err herr
    unfold applyUserEslintrc
    rw [hex, herr]
    rfl

/-- Witness for C4 at a concrete rc file carrying only a `rules` key: the
resolved base rule-set is the shallow merge of the defaults with that key. -/
theorem c4_eslintrc_resolution_witness :
    xRcPlainW.fsExists (eslintrcPath envProcW) = true ∧
    applyUserEslintrc envProcW xRcPlainW eoDefaultW
      = { eoDefaultW with
          baseConfig := some (rcMerge (eoDefaultW.baseConfig.getD []) [("rules", RcVal.objVal)]) } :=
  ⟨rfl, (((c4_eslintrc_resolution envProcW xRcPlainW eoDefaultW [("rules", RcVal.objVal)] rfl).1
      rfl).2 rfl).1⟩

/-- Counterexample to C4 as stated: an rc file that has an `extends` key whose
value is the empty (JS-falsy) string is not treated as authoritative — the
bundled base rule-set is kept (merged), `useEslintrc` stays off. -/
theorem c4_falsy_extends_counterexample :
    xRcExtendsEmptyW.readRc (eslintrcPath envProcW) = .ok [("extends", RcVal.str "")] ∧
    rcLookup [("extends", RcVal.str "")] "extends" = some (RcVal.str "") ∧
    (applyUserEslintrc envProcW xRcExtendsEmptyW eoDefaultW).useEslintrc = false ∧
    (applyUserEslintrc envProcW xRcExtendsEmptyW eoDefaultW).ignore = false ∧
    (applyUserEslintrc envProcW xRcExtendsEmptyW eoDefaultW).baseConfig
      = some [("extends", RcVal.str "")] := by
  exact ⟨rfl, rfl, rfl, rfl, rfl⟩

/-- C5: the disable-lint flag removes exactly the script-lint pre-pass rule
from the produced rule list and the disable-type-lint flag removes exactly the
type-lint pre-pass rule; the rest of the list is identical under every flag
combination, and neither lint loader occurs anywhere in that rest. -/
theorem c5_lint_disable_flags (o : Opts) (e : Env) (x : Ext) (cwd : String)
    (eo : EslintOptions) (bu : List UseItem) (cssR : List Rule)
    (pT pE : String) (rest : List Rule)
    (hT : x.resolveProbe "tslint-loader" = some pT)
    (hE : x.resolveProbe "eslint-loader" = some pE)
    (hmain : mainRules o x cwd bu cssR = .ok rest)
    (hbu : ∀ it ∈ bu, isEslintItem it = false ∧ isTslintItem it = false)
    (hcss : ∀ r ∈ cssR, usesEslintOptions r = false ∧ usesTslintOptions r = false) :
    buildModuleRules o { e with disableTslint := false, disableEslint := false } x cwd eo bu cssR
        = .ok (tslintRule cwd pT :: eslintRule cwd eo pE :: rest) ∧
    buildModuleRules o { e with disableTslint := false, disableEslint := true } x cwd eo bu cssR
        = .ok (tslintRule cwd pT :: rest) ∧
    buildModuleRules o { e with disableTslint := true, disableEslint := false } x cwd eo bu cssR
        = .ok (eslintRule cwd eo pE :: rest) ∧
    buildModuleRules o { e with disableTslint := true, disableEslint := true } x cwd eo bu cssR
        = .ok rest ∧
    usesEslintOptions (eslintRule cwd eo pE) = true ∧
    usesTslintOptions (tslintRule cwd pT) = true ∧
    usesEslintOptions (tslintRule cwd pT) = false ∧
    usesTslintOptions (eslintRule cwd eo pE) = false ∧
    (∀ r ∈ rest, usesEslintOptions r = false ∧ usesTslintOptions r = false) := by
  have hbuE : bu.any isEslintItem = false := by
    simp only [List.any_eq_false]
    intro it hit
    simp [(hbu it hit).1]
  have hbuT : bu.any isTslintItem = false := by
    simp only [List.any_eq_false]
    intro it hit
    simp [(hbu it hit).2]
  refine ⟨?_, ?_, ?_, ?_, rfl, rfl, rfl, rfl, ?_⟩ <;>
    first
    | (unfold buildModuleRules preLintRules
       rw [requireResolve_ok hT, requireResolve_ok hE, hmain]
       rfl)
    | (unfold mainRules at hmain
       cases h1 : requireResolve x "url-loader" with
       | error s => rw [h1] at hmain; exact absurd hmain (by simp)
       | ok urlP =>
       rw [h1] at hmain
       cases h2 : requireResolve x "awesome-typescript-loader" with
       | error s => rw [h2] at hmain; exact absurd hmain (by simp)
       | ok atlP =>
       rw [h2] at hmain
       cases h3 : requireResolve x "file-loader" with
       | error s => rw [h3] at hmain; exact absurd hmain (by simp)
       | ok fileP =>
       rw [h3] at hmain
       simp only [Except.ok.injEq] at hmain
       subst hmain
       intro r hr
       rcases List.mem_append.mp hr with hg | hg
       · rcases List.mem_append.mp hg with hg1 | hg1
         · rcases List.mem_append.mp hg1 with hg2 | hg2
           · simp only [List.mem_cons, List.not_mem_nil, or_false] at hg2
             rcases hg2 with rfl | rfl | rfl
             · simp [usesEslintOptions, usesTslintOptions, urlRule, itemsOf]
             · simp [usesEslintOptions, usesTslintOptions, jsRule, itemsOf, hbuE, hbuT]
             · simp [usesEslintOptions, usesTslintOptions, tsRule, itemsOf, List.any_append,
                 hbuE, hbuT, isEslintItem, isTslintItem]
           · rcases ho : o.extraBabelIncludes with _ | incs <;> rw [ho] at hg2
             · simp at hg2
             · obtain ⟨inc, _, rfl⟩ := List.mem_map.mp hg2
               simp [usesEslintOptions, usesTslintOptions, extraIncludeRule, itemsOf, hbuE, hbuT]
         · simp only [List.mem_cons, List.not_mem_nil, or_false] at hg1
           subst hg1
           simp [usesEslintOptions, usesTslintOptions, htmlRule, itemsOf]
       · exact hcss r hg)

/-- Witness for C5 at a concrete resolution environment, an empty script chain
and no style rules. -/
theorem c5_lint_disable_flags_witness :
    mainRules optsW xAll "/app" [] [] = .ok restW ∧
    buildModuleRules optsW { envDevW with disableTslint := false, disableEslint := true }
        xAll "/app" eoDefaultW [] [] = .ok (tslintRule "/app" "tslint-loader" :: restW) :=
  ⟨rfl, (c5_lint_disable_flags optsW envDevW xAll "/app" eoDefaultW [] []
      "tslint-loader" "eslint-loader" restW rfl rfl rfl
      (by simp) (by simp)).2.1⟩

/-- C6: in development mode both hash suffixes are empty for every options
record, even when hashing is requested, so the script and chunk templates carry
no hash placeholder; in production mode with hashing requested the script and
chunk templates carry the `[chunkhash:8]` placeholder and the extracted
stylesheet template carries the distinct `[contenthash:8]` placeholder. -/
theorem c6_hash_templates (o : Opts) (e : Env) (x : Ext) (cwd op : String) :
    jsHash true o.hash = "" ∧
    cssHash true o.hash = "" ∧
    scriptFilenameTemplate (jsHash true o.hash) = "[name].js" ∧
    chunkFilenameTemplate (jsHash true o.hash) = "[name].async.js" ∧
    (o.hash = true →
      scriptFilenameTemplate (jsHash false o.hash) = "[name]." ++ "[chunkhash:8]" ++ ".js" ∧
      chunkFilenameTemplate (jsHash false o.hash) = "[name]." ++ "[chunkhash:8]" ++ ".async.js" ∧
      stylesheetFilenameTemplate (cssHash false o.hash) = "[name]." ++ "[contenthash:8]" ++ ".css" ∧
      Plugin.extractText (stylesheetFilenameTemplate (cssHash false o.hash)) true
        ∈ buildPlugins o e x false cwd (cssHash false o.hash) op) ∧
    "[chunkhash:8]" ≠ "[contenthash:8]" := by
  refine ⟨by simp [jsHash], by simp [cssHash], ?_, ?_, ?_, by decide⟩
  · rw [show jsHash true o.hash = "" by simp [jsHash]]
    rfl
  · rw [show jsHash true o.hash = "" by simp [jsHash]]
    rfl
  · intro hh
    rw [hh]
    refine ⟨rfl, rfl, rfl, ?_⟩
    simp [buildPlugins]

/-- C9 (amended): the paths the synthesizer builds into the descriptor — the
output directory default, the public-directory copy source and target, the
extra transform directories — are resolved against the supplied working
directory; the project manifest and the project-local lint-configuration file
are instead resolved against the process working directory. -/
theorem c9_cwd_relative_paths (o : Opts) (e : Env) (x : Ext) (cwd : String)
    (bu : List UseItem) (inc : String) :
    manifestPath e = pathResolve e.processCwd "package.json" ∧
    eslintrcPath e = pathResolve e.processCwd ".eslintrc" ∧
    outputPathOf { o with outputPath := none } cwd = pathResolve cwd "dist" ∧
    (extraIncludeRule cwd bu inc).includeSpec = some (.path (pathJoin cwd inc)) ∧
    (x.fsExists (pathResolve cwd "public") = true →
      Plugin.copyPlugin [(pathResolve cwd "public", pathResolve cwd (outputPathOf o cwd))]
        ∈ copyPluginsOf o x cwd (outputPathOf o cwd)) := by
  refine ⟨rfl, rfl, rfl, rfl, ?_⟩
  intro hex
  unfold copyPluginsOf
  rw [hex]
  rcases o.copy with _ | c <;> simp

/-- Witness for C9 at a concrete record whose `public` directory exists: the
implicit copy plugin maps `/app/public` into the output directory under `/app`. -/
theorem c9_cwd_relative_paths_witness :
    xPubW.fsExists (pathResolve "/app" "public") = true ∧
    Plugin.copyPlugin [(pathResolve "/app" "public", pathResolve "/app" (outputPathOf optsW "/app"))]
      ∈ copyPluginsOf optsW xPubW "/app" (outputPathOf optsW "/app") :=
  ⟨rfl, (c9_cwd_relative_paths optsW envDevW xPubW "/app" [] "pages").2.2.2.2 rfl⟩

/-- Counterexample to C9 as stated: with working directory `/app` supplied and
the process running elsewhere, the manifest is read from
`/elsewhere/package.json` — not under `/app` — so a manifest at the supplied
working directory that declares the lint engine is never seen and the bundled
engine is kept. -/
theorem c9_process_cwd_counterexample :
    manifestPath envElsewhereW = "/elsewhere/package.json" ∧
    eslintrcPath envElsewhereW = "/elsewhere/.eslintrc" ∧
    ("/elsewhere/package.json").toList.take 5 ≠ ("/app/").toList.take 5 ∧
    xManifestAtCwdW.readManifest "/app/package.json"
      = .ok { dependencies := some ["eslint"], devDependencies := none } ∧
    applyUserEslintPath envElsewhereW xManifestAtCwdW "/app" eoDefaultW = eoDefaultW ∧
    eoDefaultW.eslintPath = "eslint" := by
  exact ⟨rfl, rfl, by decide, rfl, rfl, rfl⟩

/-- C10: the static-asset fallback rule's output filename template is the fixed
`static/[name].[hash:8].[ext]` — it contains the 8-character content-hash
segment for every options record, every environment and both modes — while the
script and stylesheet hash suffixes are empty in development and non-empty only
in production with hashing requested. -/
theorem c10_static_fallback_hash (o : Opts) (e : Env) (x : Ext) (cwd : String)
    (eo : EslintOptions) (bu : List UseItem) (cssR : List Rule) (rs : List Rule) (urlP : String)
    (hurl : x.resolveProbe "url-loader" = some urlP)
    (h : buildModuleRules o e x cwd eo bu cssR = .ok rs) :
    urlRule urlP ∈ rs ∧
    (urlRule urlP).options = some (LoaderOptions.urlOpts 10000 "static/[name].[hash:8].[ext]") ∧
    ("static/[name].[hash:8].[ext]" = "static/[name]." ++ "[hash:8]" ++ ".[ext]") ∧
    jsHash true true = "" ∧ cssHash true true = "" ∧
    jsHash false true = ".[chunkhash:8]" ∧ cssHash false true = ".[contenthash:8]" := by
  refine ⟨?_, rfl, rfl, rfl, rfl, rfl, rfl⟩
  unfold buildModuleRules at h
  cases hpre : preLintRules e x cwd eo with
  | error s => rw [hpre] at h; exact absurd h (by simp)
  | ok pre =>
  rw [hpre] at h
  unfold mainRules at h
  rw [requireResolve_ok hurl] at h
  cases ha : requireResolve x "awesome-typescript-loader" with
  | error s => rw [ha] at h; exact absurd h (by simp)
  | ok atlP =>
  rw [ha] at h
  cases hf : requireResolve x "file-loader" with
  | error s => rw [hf] at h; exact absurd h (by simp)
  | ok fileP =>
  rw [hf] at h
  simp only [Except.ok.injEq] at h
  subst h
  simp [List.mem_append]

/-- Witness for C10 with both pre-pass rules disabled: the produced list is
`restW` and the fallback rule is its first element. -/
theorem c10_static_fallback_hash_witness :
    buildModuleRules optsW { envDevW with disableTslint := true, disableEslint := true }
        xAll "/app" eoDefaultW [] [] = .ok restW ∧
    urlRule "url-loader" ∈ restW :=
  ⟨rfl, (c10_static_fallback_hash optsW { envDevW with disableTslint := true, disableEslint := true }
      xAll "/app" eoDefaultW [] [] restW "url-loader" rfl rfl).1⟩

end AfWebpack
